import Mathlib

/-!
Verification of the `linux-kvm` crate (apparentlymart/rust-linux) against its
natural-language specification.

The development shallowly embeds the crate's KVM wrapper layer:

* the `repr(C)` layouts of `kvm_userspace_memory_region`, `kvm_run` and
  `kvm_regs` (src/linux-kvm/src/raw.rs) via an explicit C struct/union
  layout calculator;
* the ioctl request-code encoding `_IOC`/`_IO`/`_IOR`/`_IOW`
  (src/linux-io/src/fd/ioctl.rs) and the KVM request constants
  (src/linux-kvm/src/ioctl/{system,vm,vcpu}.rs);
* the effectful operations of `Kvm`, `VirtualMachine`, `VirtualCpu`,
  `VirtualCpuRunner` and `MemoryRegion` (src/linux-kvm/src/lib.rs) as
  functions over an explicit kernel oracle, each returning its result
  together with the ordered trace of system calls it issued.
-/

namespace LinuxKvm

/-- Kernel error code: `linux_io::result::Error` wraps a raw `i32`. -/
abbrev Err := Int

/-- File descriptors are C `int`s (`linux_unsafe::int`). -/
abbrev Fd := Int

/-! ## C layout calculator (for `repr(C)` structs and unions) -/

/-- One field of a `repr(C)` struct: its name, size and alignment in bytes. -/
structure CField where
  name : String
  size : Nat
  align : Nat
  deriving Repr, DecidableEq

/-- Round `off` up to the next multiple of `a`. -/
def alignUp (off a : Nat) : Nat := ((off + a - 1) / a) * a

/-- The offset just past the last field when the fields are laid out in
order per the C struct layout rules, starting from `off`. -/
def structEndOffset : Nat → List CField → Nat
  | off, [] => off
  | off, f :: rest => structEndOffset (alignUp off f.align + f.size) rest

/-- The byte offset of every field of a `repr(C)` struct, in declaration
order, when layout starts from `off`. -/
def fieldOffsets : Nat → List CField → List Nat
  | _, [] => []
  | off, f :: rest => alignUp off f.align :: fieldOffsets (alignUp off f.align + f.size) rest

/-- Alignment of a `repr(C)` struct: maximum alignment of its fields. -/
def structAlign (fs : List CField) : Nat := fs.foldl (fun a f => max a f.align) 1

/-- `size_of` for a `repr(C)` struct: end offset rounded up to the struct
alignment. -/
def structSize (fs : List CField) : Nat := alignUp (structEndOffset 0 fs) (structAlign fs)

/-- Alignment of a `repr(C)` union: maximum alignment of its members
(each member given as size × alignment). -/
def unionAlign (ms : List (Nat × Nat)) : Nat := ms.foldl (fun a m => max a m.2) 1

/-- `size_of` for a `repr(C)` union: maximum member size rounded up to the
union alignment. -/
def unionSize (ms : List (Nat × Nat)) : Nat :=
  alignUp (ms.foldl (fun a m => max a m.1) 0) (unionAlign ms)

/-! ## Layouts from src/linux-kvm/src/raw.rs -/

/-- Fields of `kvm_userspace_memory_region` (raw.rs lines 24–30):
`slot: u32, flags: u32, guest_phys_addr: u64, memory_size: u64,
userspace_addr: u64`. -/
def kvm_userspace_memory_region_fields : List CField :=
  [⟨"slot", 4, 4⟩, ⟨"flags", 4, 4⟩, ⟨"guest_phys_addr", 8, 8⟩,
   ⟨"memory_size", 8, 8⟩, ⟨"userspace_addr", 8, 8⟩]

/-- Fields of `ExitUnknown`: `hardware_exit_reason: u64`. -/
def exit_unknown_fields : List CField := [⟨"hardware_exit_reason", 8, 8⟩]

/-- Fields of `ExitFailEntry`: `hardware_entry_failure_reason: u64, cpu: u32`. -/
def exit_fail_entry_fields : List CField :=
  [⟨"hardware_entry_failure_reason", 8, 8⟩, ⟨"cpu", 4, 4⟩]

/-- Fields of `ExitException`: `exception: u32, error_code: u32`. -/
def exit_exception_fields : List CField := [⟨"exception", 4, 4⟩, ⟨"error_code", 4, 4⟩]

/-- Fields of `ExitIo`: `direction: u8, size: u8, port: u16, count: u32,
data_offset: u64`. -/
def exit_io_fields : List CField :=
  [⟨"direction", 1, 1⟩, ⟨"size", 1, 1⟩, ⟨"port", 2, 2⟩, ⟨"count", 4, 4⟩,
   ⟨"data_offset", 8, 8⟩]

/-- Fields of `ExitMmio`: `phys_addr: u64, data: [u8; 8], len: u32,
is_write: u8`. -/
def exit_mmio_fields : List CField :=
  [⟨"phys_addr", 8, 8⟩, ⟨"data", 8, 1⟩, ⟨"len", 4, 4⟩, ⟨"is_write", 1, 1⟩]

/-- Members of the `ExitDetails` union (size × alignment of each member):
`hw`, `fail_entry`, `ex`, `io`, `mmio` and the 256-byte `padding` array of
`linux_unsafe::char` (1-byte C chars). -/
def exit_details_members : List (Nat × Nat) :=
  [(structSize exit_unknown_fields, structAlign exit_unknown_fields),
   (structSize exit_fail_entry_fields, structAlign exit_fail_entry_fields),
   (structSize exit_exception_fields, structAlign exit_exception_fields),
   (structSize exit_io_fields, structAlign exit_io_fields),
   (structSize exit_mmio_fields, structAlign exit_mmio_fields),
   (256, 1)]

/-- The fixed header fields of `kvm_run` (raw.rs lines 8–17), i.e. every
field before the reason-tagged `exit_details` payload union. -/
def kvm_run_header_fields : List CField :=
  [⟨"request_interrupt_window", 1, 1⟩, ⟨"immediate_exit", 1, 1⟩,
   ⟨"padding1", 6, 1⟩, ⟨"exit_reason", 4, 4⟩,
   ⟨"ready_for_interrupt_injection", 1, 1⟩, ⟨"if_flag", 1, 1⟩,
   ⟨"flags", 2, 2⟩, ⟨"cr8", 8, 8⟩, ⟨"apic_base", 8, 8⟩]

/-- All fields of `kvm_run`: the fixed header followed by the
`exit_details` payload union. -/
def kvm_run_fields : List CField :=
  kvm_run_header_fields ++
    [⟨"exit_details", unionSize exit_details_members, unionAlign exit_details_members⟩]

/-- `size_of::<kvm_run>()`: the full shared control page structure. -/
def sizeOfKvmRun : Nat := structSize kvm_run_fields

/-- Size of just the fixed header of `kvm_run` (everything before the
`exit_details` payload), as a standalone struct. -/
def kvmRunHeaderSize : Nat := structSize kvm_run_header_fields

/-- Fields of the x86_64 `kvm_regs` (raw.rs lines 36–55): eighteen `u64`
registers `rax` … `rflags`. -/
def kvm_regs_fields : List CField :=
  ["rax", "rbx", "rcx", "rdx", "rsi", "rdi", "rsp", "rbp",
   "r8", "r9", "r10", "r11", "r12", "r13", "r14", "r15",
   "rip", "rflags"].map (fun n => ⟨n, 8, 8⟩)

/-- `size_of::<kvm_regs>()` on x86_64. -/
def sizeOfKvmRegs : Nat := structSize kvm_regs_fields

/-- `size_of::<int>()`: C `int` is 4 bytes. -/
def sizeOfInt : Nat := 4

/-! ## ioctl request-code encoding (src/linux-io/src/fd/ioctl.rs 493–517) -/

/-- `_IOC(dir, typ, nr, size) = (dir << 30) | (typ << 8) | (nr << 0) | (size << 16)`. -/
def ioc (dir typ nr size : Nat) : Nat :=
  (dir <<< 30) ||| (typ <<< 8) ||| (nr <<< 0) ||| (size <<< 16)

/-- `_IO(typ, nr) = _IOC(0, typ, nr, 0)`: neither read nor write. -/
def ioNoData (typ nr : Nat) : Nat := ioc 0 typ nr 0

/-- `_IOR(typ, nr, size) = _IOC(2, typ, nr, size)`: userspace reads. -/
def ioR (typ nr size : Nat) : Nat := ioc 2 typ nr size

/-- `_IOW(typ, nr, size) = _IOC(1, typ, nr, size)`: userspace writes. -/
def ioW (typ nr size : Nat) : Nat := ioc 1 typ nr size

/-- The KVM ioctl "type" byte, `KVMIO = 0xAE` (ioctl/system.rs). -/
def kvmIoctlType : Nat := 0xAE

/-- `KVM_GET_API_VERSION = _IO(KVMIO, 0x00)` (ioctl/system.rs). -/
def KVM_GET_API_VERSION : Nat := ioNoData kvmIoctlType 0x00

/-- `KVM_CREATE_VM = _IO(KVMIO, 0x01)` (ioctl/system.rs). -/
def KVM_CREATE_VM : Nat := ioNoData kvmIoctlType 0x01

/-- System-scoped `KVM_CHECK_EXTENSION = _IOW(KVMIO, 0x03, size_of::<int>())`
(ioctl/system.rs). -/
def KVM_CHECK_EXTENSION_SYSTEM : Nat := ioW kvmIoctlType 0x03 sizeOfInt

/-- `KVM_GET_VCPU_MMAP_SIZE = _IO(KVMIO, 0x04)` (ioctl/system.rs). -/
def KVM_GET_VCPU_MMAP_SIZE : Nat := ioNoData kvmIoctlType 0x04

/-- VM-scoped `KVM_CHECK_EXTENSION = _IOW(KVMIO, 0x03, size_of::<int>())`
(ioctl/vm.rs). -/
def KVM_CHECK_EXTENSION_VM : Nat := ioW kvmIoctlType 0x03 sizeOfInt

/-- `KVM_CREATE_VCPU = _IO(KVMIO, 0x41)` (ioctl/vm.rs). -/
def KVM_CREATE_VCPU : Nat := ioNoData kvmIoctlType 0x41

/-- `KVM_SET_USER_MEMORY_REGION = _IOW(KVMIO, 0x46,
size_of::<kvm_userspace_memory_region>())` (ioctl/vm.rs). -/
def KVM_SET_USER_MEMORY_REGION : Nat :=
  ioW kvmIoctlType 0x46 (structSize kvm_userspace_memory_region_fields)

/-- `KVM_RUN = _IO(KVMIO, 0x80)` (ioctl/vcpu.rs). -/
def KVM_RUN : Nat := ioNoData kvmIoctlType 0x80

/-- `KVM_GET_REGS = _IOR(KVMIO, 0x81, size_of::<kvm_regs>())` (ioctl/vcpu.rs). -/
def KVM_GET_REGS : Nat := ioR kvmIoctlType 0x81 sizeOfKvmRegs

/-- `KVM_SET_REGS = _IOW(KVMIO, 0x82, size_of::<kvm_regs>())` (ioctl/vcpu.rs). -/
def KVM_SET_REGS : Nat := ioW kvmIoctlType 0x82 sizeOfKvmRegs

/-- Direction bits of an encoded ioctl request code. -/
def iocDir (code : Nat) : Nat := code >>> 30

/-- Type byte of an encoded ioctl request code. -/
def iocType (code : Nat) : Nat := (code >>> 8) &&& 0xFF

/-- Number byte of an encoded ioctl request code. -/
def iocNr (code : Nat) : Nat := code &&& 0xFF

/-- Payload size field of an encoded ioctl request code. -/
def iocSize (code : Nat) : Nat := (code >>> 16) &&& 0x3FFF

/-! ## Data model (src/linux-kvm/src/lib.rs and raw.rs) -/

/-- The `kvm_userspace_memory_region` descriptor passed to
`KVM_SET_USER_MEMORY_REGION` (raw.rs lines 24–30). Field values are the
mathematical integers held by the `u32`/`u64` fields. -/
structure MemRegionDesc where
  slot : Nat
  flags : Nat
  guest_phys_addr : Nat
  memory_size : Nat
  userspace_addr : Nat
  deriving Repr, DecidableEq

/-- The x86_64 `kvm_regs` register set (raw.rs lines 36–55). -/
structure KvmRegs where
  rax : Nat
  rbx : Nat
  rcx : Nat
  rdx : Nat
  rsi : Nat
  rdi : Nat
  rsp : Nat
  rbp : Nat
  r8 : Nat
  r9 : Nat
  r10 : Nat
  r11 : Nat
  r12 : Nat
  r13 : Nat
  r14 : Nat
  r15 : Nat
  rip : Nat
  rflags : Nat
  deriving Repr, DecidableEq

/-- An all-zero register set, for concrete instantiations. -/
def KvmRegs.zero : KvmRegs := ⟨0,0,0,0,0,0,0,0,0,0,0,0,0,0,0,0,0,0⟩

/-- Contents of the shared `kvm_run` control page (raw.rs lines 8–19).
`padding1` and `exit_details` are kept as raw byte lists. -/
structure KvmRun where
  request_interrupt_window : Nat
  immediate_exit : Nat
  padding1 : List Nat
  exit_reason : Nat
  ready_for_interrupt_injection : Nat
  if_flag : Nat
  flags : Nat
  cr8 : Nat
  apic_base : Nat
  exit_details : List Nat
  deriving Repr, DecidableEq

/-- One system call issued by the wrapper layer, as recorded in a trace. -/
inductive Syscall where
  /-- `ioctl` with no argument payload (`IoctlReqNoArgs`). -/
  | ioctlNone (fd : Fd) (req : Nat)
  /-- `ioctl` writing a C `int` payload (`IoctlReqWrite<_, int, _>`
  passes a pointer to the int; `IoctlReqWriteVal` passes it by value;
  either way the kernel receives the same `int`). -/
  | ioctlWInt (fd : Fd) (req : Nat) (arg : Int)
  /-- `ioctl` writing a `kvm_userspace_memory_region` payload. -/
  | ioctlWMemRegion (fd : Fd) (req : Nat) (arg : MemRegionDesc)
  /-- `ioctl` writing a `kvm_regs` payload (`KVM_SET_REGS`). -/
  | ioctlWRegs (fd : Fd) (req : Nat) (arg : KvmRegs)
  /-- `ioctl` reading a `kvm_regs` payload back (`KVM_GET_REGS`). -/
  | ioctlRRegs (fd : Fd) (req : Nat)
  /-- `File::mmap_raw(offset, length, addr, prot, flags)` on fd. -/
  | mmapFd (fd : Fd) (offset : Int) (length : Nat) (addr : Nat) (prot : Nat) (flags : Nat)
  /-- Anonymous `linux_unsafe::mmap(addr, length, prot, flags, fd, offset)`. -/
  | mmapAnon (addr : Nat) (length : Nat) (prot : Nat) (flags : Nat) (fd : Int) (offset : Int)
  /-- `linux_unsafe::munmap(addr, length)`. -/
  | munmap (addr : Nat) (length : Nat)
  deriving Repr, DecidableEq

/-- `true` exactly for mmap system calls (either form). -/
def Syscall.isMap : Syscall → Bool
  | .mmapFd .. => true
  | .mmapAnon .. => true
  | _ => false

/-- A kernel oracle: one answer function per shape of system call the
wrapper layer can issue. The wrapper is verified for every oracle, i.e.
for every possible kernel behaviour. -/
structure Kernel where
  ioctlNone : Fd → Nat → Except Err Int
  ioctlWInt : Fd → Nat → Int → Except Err Int
  ioctlWMemRegion : Fd → Nat → MemRegionDesc → Except Err Int
  ioctlWRegs : Fd → Nat → KvmRegs → Except Err Int
  ioctlRRegs : Fd → Nat → Except Err KvmRegs
  mmapFd : Fd → Int → Nat → Nat → Nat → Nat → Except Err Nat
  mmapAnon : Nat → Nat → Nat → Nat → Int → Int → Except Err Nat
  munmap : Nat → Nat → Except Err Unit

/-- Rust `as` cast from the (signed, 32-bit) `int` result of an ioctl to
`size_t` on a 64-bit target: sign-extend and reinterpret, i.e. reduce
modulo `2^64`. -/
def intToSizeT (n : Int) : Nat := (n % (2 ^ 64 : Int)).toNat

/-- `Kvm`: wraps the open `/dev/kvm` file (lib.rs lines 22–24). -/
structure Kvm where
  fd : Fd
  deriving Repr, DecidableEq

/-- `VirtualMachine`: a VM file plus the borrowed `Kvm` (lib.rs 103–106). -/
structure VirtualMachine where
  fd : Fd
  kvm : Kvm
  deriving Repr, DecidableEq

/-- `VirtualCpu`: a vCPU file plus the borrowed `Kvm` (lib.rs 163–166). -/
structure VirtualCpu where
  fd : Fd
  kvm : Kvm
  deriving Repr, DecidableEq

/-- `VirtualCpuRunner`: the vCPU, the pointer to the mapped control page,
and the mapped length (lib.rs 204–208). -/
structure VirtualCpuRunner where
  vcpu : VirtualCpu
  run : Nat
  run_len : Nat
  deriving Repr, DecidableEq

/-- `MemoryRegion`: base address and length of an anonymous host mapping
(lib.rs 287–290). -/
structure MemoryRegion where
  addr : Nat
  length : Nat
  deriving Repr, DecidableEq

/-! ## Operations (src/linux-kvm/src/lib.rs)

Each effectful operation takes the kernel oracle and returns its Rust
result together with the ordered list of system calls it issued. -/

/-- `Kvm::get_api_version` (lib.rs 71–73): a no-argument
`KVM_GET_API_VERSION` ioctl whose `int` result is returned directly. -/
def Kvm.get_api_version (k : Kernel) (s : Kvm) : Except Err Int × List Syscall :=
  (k.ioctlNone s.fd KVM_GET_API_VERSION, [.ioctlNone s.fd KVM_GET_API_VERSION])

/-- `Kvm::check_extension` (lib.rs 82–84): writes `ext` with the
system-scoped `KVM_CHECK_EXTENSION` request. -/
def Kvm.check_extension (k : Kernel) (s : Kvm) (ext : Int) : Except Err Int × List Syscall :=
  (k.ioctlWInt s.fd KVM_CHECK_EXTENSION_SYSTEM ext,
   [.ioctlWInt s.fd KVM_CHECK_EXTENSION_SYSTEM ext])

/-- `Kvm::get_vcpu_mmap_size` (lib.rs 96–98): a no-argument
`KVM_GET_VCPU_MMAP_SIZE` ioctl. -/
def Kvm.get_vcpu_mmap_size (k : Kernel) (s : Kvm) : Except Err Int × List Syscall :=
  (k.ioctlNone s.fd KVM_GET_VCPU_MMAP_SIZE, [.ioctlNone s.fd KVM_GET_VCPU_MMAP_SIZE])

/-- `VirtualMachine::check_extension` (lib.rs 122–124): writes `ext` with
the VM-scoped `KVM_CHECK_EXTENSION` request. -/
def VirtualMachine.check_extension (k : Kernel) (vm : VirtualMachine) (ext : Int) :
    Except Err Int × List Syscall :=
  (k.ioctlWInt vm.fd KVM_CHECK_EXTENSION_VM ext,
   [.ioctlWInt vm.fd KVM_CHECK_EXTENSION_VM ext])

/-- `VirtualMachine::set_guest_memory_region` (lib.rs 141–158): builds the
`kvm_userspace_memory_region` descriptor (casting the region's `size_t`
length and pointer address to `u64`) and issues one
`KVM_SET_USER_MEMORY_REGION` write, mapping a successful `int` result to
`()`. -/
def VirtualMachine.set_guest_memory_region (k : Kernel) (vm : VirtualMachine)
    (slot flags : Nat) (guest_phys_addr : Nat) (host_region : MemoryRegion) :
    Except Err Unit × List Syscall :=
  let desc : MemRegionDesc :=
    { slot := slot, flags := flags, guest_phys_addr := guest_phys_addr,
      memory_size := host_region.length % 2 ^ 64,
      userspace_addr := host_region.addr % 2 ^ 64 }
  ((k.ioctlWMemRegion vm.fd KVM_SET_USER_MEMORY_REGION desc).map (fun _ => ()),
   [.ioctlWMemRegion vm.fd KVM_SET_USER_MEMORY_REGION desc])

/-- `VirtualCpu::get_regs` (lib.rs 178–180): a `KVM_GET_REGS` read ioctl. -/
def VirtualCpu.get_regs (k : Kernel) (cpu : VirtualCpu) :
    Except Err KvmRegs × List Syscall :=
  (k.ioctlRRegs cpu.fd KVM_GET_REGS, [.ioctlRRegs cpu.fd KVM_GET_REGS])

/-- `VirtualCpu::set_regs` (lib.rs 185–187): a `KVM_SET_REGS` write ioctl,
mapping a successful `int` result to `()`. -/
def VirtualCpu.set_regs (k : Kernel) (cpu : VirtualCpu) (new : KvmRegs) :
    Except Err Unit × List Syscall :=
  ((k.ioctlWRegs cpu.fd KVM_SET_REGS new).map (fun _ => ()),
   [.ioctlWRegs cpu.fd KVM_SET_REGS new])

/-- `VirtualCpuRunner::new` (lib.rs 211–238): rejects a mapping size
smaller than `size_of::<kvm_run>()` with the locally built error
`Error::new(12)` (ENOMEM) before any system call, otherwise maps the vCPU
fd with `offset 0`, `PROT_READ | PROT_WRITE` and `MAP_SHARED` and stores
the pointer and length. -/
def VirtualCpuRunner.new (k : Kernel) (cpu : VirtualCpu) (mmap_size : Nat) :
    Except Err VirtualCpuRunner × List Syscall :=
  if sizeOfKvmRun > mmap_size then
    (.error 12, [])
  else
    match k.mmapFd cpu.fd 0 mmap_size 0 (0x1 ||| 0x2) 0x1 with
    | .ok p => (.ok ⟨cpu, p, mmap_size⟩, [.mmapFd cpu.fd 0 mmap_size 0 (0x1 ||| 0x2) 0x1])
    | .error e => (.error e, [.mmapFd cpu.fd 0 mmap_size 0 (0x1 ||| 0x2) 0x1])

/-- `VirtualCpu::to_runner` (lib.rs 196–199): queries the owning `Kvm`'s
shared-page size (propagating its error via `?`), casts the `int` to
`size_t`, and delegates to `VirtualCpuRunner::new`. -/
def VirtualCpu.to_runner (k : Kernel) (cpu : VirtualCpu) :
    Except Err VirtualCpuRunner × List Syscall :=
  let q := Kvm.get_vcpu_mmap_size k cpu.kvm
  match q.1 with
  | .error e => (.error e, q.2)
  | .ok n =>
    let r := VirtualCpuRunner.new k cpu (intToSizeT n)
    (r.1, q.2 ++ r.2)

/-- Result of a `VirtualCpuRunner` method: the returned value, the runner
state after the call (the fields of `self`), and the syscall trace. -/
structure OpResult (α : Type u) where
  res : α
  runner : VirtualCpuRunner
  trace : List Syscall

/-- `VirtualCpuRunner::get_regs` (lib.rs 243–245): delegates to the vCPU. -/
def VirtualCpuRunner.get_regs (k : Kernel) (r : VirtualCpuRunner) :
    OpResult (Except Err KvmRegs) :=
  let g := VirtualCpu.get_regs k r.vcpu
  ⟨g.1, r, g.2⟩

/-- `VirtualCpuRunner::set_regs` (lib.rs 250–252): delegates to the vCPU. -/
def VirtualCpuRunner.set_regs (k : Kernel) (r : VirtualCpuRunner) (new : KvmRegs) :
    OpResult (Except Err Unit) :=
  let s := VirtualCpu.set_regs k r.vcpu new
  ⟨s.1, r, s.2⟩

/-- `VirtualCpuRunner::modify_regs` (lib.rs 256–261): `get_regs`, apply
`f` to the retrieved registers (modelled as `KvmRegs → KvmRegs × R`, the
mutated registers plus `f`'s return value), then `set_regs` with the
mutated value; `?` on each step. -/
def VirtualCpuRunner.modify_regs (k : Kernel) (r : VirtualCpuRunner)
    (f : KvmRegs → KvmRegs × α) : OpResult (Except Err α) :=
  let g := VirtualCpuRunner.get_regs k r
  match g.res with
  | .error e => ⟨.error e, g.runner, g.trace⟩
  | .ok regs =>
    let pr := f regs
    let s := VirtualCpuRunner.set_regs k g.runner pr.1
    match s.res with
    | .error e => ⟨.error e, s.runner, g.trace ++ s.trace⟩
    | .ok _ => ⟨.ok pr.2, s.runner, g.trace ++ s.trace⟩

/-- `VirtualCpuRunner::with_raw_run_state` (lib.rs 264–266): applies `f`
to the control page contents behind `self.run` (modelled as
`KvmRun → KvmRun × R`) and returns its result; the runner's own fields
are untouched. -/
def VirtualCpuRunner.with_raw_run_state (r : VirtualCpuRunner) (page : KvmRun)
    (f : KvmRun → KvmRun × α) : α × KvmRun × VirtualCpuRunner :=
  ((f page).2, (f page).1, r)

/-- `VirtualCpuRunner::run_raw` (lib.rs 270–273): a no-argument `KVM_RUN`
ioctl on the vCPU fd, discarding the `int` result. -/
def VirtualCpuRunner.run_raw (k : Kernel) (r : VirtualCpuRunner) :
    OpResult (Except Err Unit) :=
  ⟨(k.ioctlNone r.vcpu.fd KVM_RUN).map (fun _ => ()),
   r, [.ioctlNone r.vcpu.fd KVM_RUN]⟩

/-- `Drop for VirtualCpuRunner` (lib.rs 276–282): one
`munmap(self.run, self.run_len)`, with `.unwrap()` — `some ()` models a
normal return, `none` models the panic taken on unmap failure (no normal
continuation, no recoverable error). -/
def VirtualCpuRunner.drop (k : Kernel) (r : VirtualCpuRunner) :
    Option Unit × List Syscall :=
  (match k.munmap r.run r.run_len with
   | .ok _ => some ()
   | .error _ => none,
   [.munmap r.run r.run_len])

/-- `MemoryRegion::new` (lib.rs 295–307): one anonymous
`mmap(null, length, PROT_READ | PROT_WRITE, MAP_SHARED | MAP_ANONYMOUS,
-1, 0)`; on success records the returned address and the requested
length. -/
def MemoryRegion.new (k : Kernel) (length : Nat) :
    Except Err MemoryRegion × List Syscall :=
  (match k.mmapAnon 0 length (0x1 ||| 0x2) (0x1 ||| 0x20) (-1) 0 with
   | .ok addr => .ok ⟨addr, length⟩
   | .error e => .error e,
   [.mmapAnon 0 length (0x1 ||| 0x2) (0x1 ||| 0x20) (-1) 0])

/-- `MemoryRegion::as_mut_slice` (lib.rs 311–316): a mutable byte slice is
determined by its base pointer and length;
`slice::from_raw_parts_mut(self.addr, self.length)`. -/
def MemoryRegion.as_mut_slice (r : MemoryRegion) : Nat × Nat := (r.addr, r.length)

/-- `Drop for MemoryRegion` (lib.rs 319–325): one
`munmap(self.addr, self.length)` with `.unwrap()`, like the runner. -/
def MemoryRegion.drop (k : Kernel) (r : MemoryRegion) :
    Option Unit × List Syscall :=
  (match k.munmap r.addr r.length with
   | .ok _ => some ()
   | .error _ => none,
   [.munmap r.addr r.length])

/-! ## Concrete kernel oracles for instantiations -/

/-- A kernel oracle on which every call succeeds with fixed values. -/
def kernBase : Kernel where
  ioctlNone := fun _ _ => .ok 0
  ioctlWInt := fun _ _ a => .ok a
  ioctlWMemRegion := fun _ _ _ => .ok 0
  ioctlWRegs := fun _ _ _ => .ok 0
  ioctlRRegs := fun _ _ => .ok KvmRegs.zero
  mmapFd := fun _ _ _ _ _ _ => .ok 4096
  mmapAnon := fun _ _ _ _ _ _ => .ok 8192
  munmap := fun _ _ => .ok ()

/-- A kernel whose no-argument ioctls all answer `13` (in particular an
API version other than 12). -/
def kern13 : Kernel := { kernBase with ioctlNone := fun _ _ => .ok 13 }

/-- A kernel whose no-argument ioctls all answer `32` (in particular a
shared-page size of 32 bytes). -/
def kern32 : Kernel := { kernBase with ioctlNone := fun _ _ => .ok 32 }

/-- A kernel whose no-argument ioctls all answer `288` (the exact
`kvm_run` structure size). -/
def kern288 : Kernel := { kernBase with ioctlNone := fun _ _ => .ok 288 }

/-- A kernel on which every no-argument ioctl fails with error `5`. -/
def kernQueryFail : Kernel := { kernBase with ioctlNone := fun _ _ => .error 5 }

/-- A kernel on which `munmap` fails with error `22`. -/
def kernUnmapFail : Kernel := { kernBase with munmap := fun _ _ => .error 22 }

/-- A kernel on which `KVM_GET_REGS` fails with error `9`. -/
def kernGetRegsFail : Kernel := { kernBase with ioctlRRegs := fun _ _ => .error 9 }

/-! ## Claim theorems -/

/-- C3 counterexample: the `kvm_userspace_memory_region` descriptor passed
to `KVM_SET_USER_MEMORY_REGION` is 32 bytes under the C layout rules
(4 + 4 + 8 + 8 + 8), not 24 bytes as claimed, and the size embedded in
the request code is likewise 32. -/
theorem memory_region_descriptor_not_24_bytes :
    structSize kvm_userspace_memory_region_fields ≠ 24 ∧
    structSize kvm_userspace_memory_region_fields = 32 ∧
    iocSize KVM_SET_USER_MEMORY_REGION ≠ 24 := by decide

/-- C3 (amended): the memory-slot descriptor is a fixed C layout of
exactly 32 bytes with fields `slot: u32, flags: u32, guest_phys_addr: u64,
memory_size: u64, userspace_addr: u64` in that order at offsets
0, 4, 8, 16, 24, and `KVM_SET_USER_MEMORY_REGION` embeds exactly this
32-byte payload size. -/
theorem memory_region_descriptor_layout :
    structSize kvm_userspace_memory_region_fields = 32 ∧
    kvm_userspace_memory_region_fields.map CField.name =
      ["slot", "flags", "guest_phys_addr", "memory_size", "userspace_addr"] ∧
    kvm_userspace_memory_region_fields.map CField.size = [4, 4, 8, 8, 8] ∧
    fieldOffsets 0 kvm_userspace_memory_region_fields = [0, 4, 8, 16, 24] ∧
    KVM_SET_USER_MEMORY_REGION = ioW kvmIoctlType 0x46 32 ∧
    iocSize KVM_SET_USER_MEMORY_REGION = 32 := by decide

/-- C6: `Kvm::get_api_version` issues the no-argument `KVM_GET_API_VERSION`
request and returns the kernel's integer answer verbatim — whatever the
oracle replies (any value, 12 or not) is the returned result, so the
library never turns a version mismatch into an error. -/
theorem get_api_version_verbatim (k : Kernel) (s : Kvm) :
    Kvm.get_api_version k s =
      (k.ioctlNone s.fd KVM_GET_API_VERSION,
       [Syscall.ioctlNone s.fd KVM_GET_API_VERSION]) ∧
    KVM_GET_API_VERSION = ioc 0 kvmIoctlType 0x00 0 ∧
    ∀ v : Int, k.ioctlNone s.fd KVM_GET_API_VERSION = .ok v →
      (Kvm.get_api_version k s).1 = .ok v := by
  refine ⟨rfl, rfl, fun v hv => ?_⟩
  simp [Kvm.get_api_version, hv]

/-- C6 witness: on a kernel answering 13, `get_api_version` successfully
returns 13. -/
theorem get_api_version_verbatim_witness :
    (Kvm.get_api_version kern13 ⟨3⟩).1 = .ok 13 :=
  (get_api_version_verbatim kern13 ⟨3⟩).2.2 13 rfl

/-- C8: the system-scoped and VM-scoped `KVM_CHECK_EXTENSION` request
codes are identical (write direction 1, type byte 0xAE, number 0x03,
payload size of one C int), and the two `check_extension` query functions
are equal as functions of the extension id and the kernel oracle,
differing only in the file descriptor they are issued on. -/
theorem check_extension_system_vm_equal :
    KVM_CHECK_EXTENSION_SYSTEM = KVM_CHECK_EXTENSION_VM ∧
    iocDir KVM_CHECK_EXTENSION_SYSTEM = 1 ∧
    iocType KVM_CHECK_EXTENSION_SYSTEM = 0xAE ∧
    iocNr KVM_CHECK_EXTENSION_SYSTEM = 0x03 ∧
    iocSize KVM_CHECK_EXTENSION_SYSTEM = sizeOfInt ∧
    ∀ (k : Kernel) (fd : Fd) (kvm : Kvm) (ext : Int),
      Kvm.check_extension k ⟨fd⟩ ext =
        VirtualMachine.check_extension k ⟨fd, kvm⟩ ext := by
  refine ⟨rfl, by decide, by decide, by decide, by decide, fun k fd kvm ext => rfl⟩

/-- C9: dropping a `VirtualCpuRunner` issues exactly one `munmap` call,
covering precisely the stored control-page pointer and stored mapped
length; it returns normally exactly when the unmap succeeds and on unmap
failure yields no normal continuation (the `unwrap` panic), never a
recoverable error. -/
theorem runner_drop_unmaps_once (k : Kernel) (r : VirtualCpuRunner) :
    (VirtualCpuRunner.drop k r).2 = [Syscall.munmap r.run r.run_len] ∧
    ((VirtualCpuRunner.drop k r).1 = some () ↔
      k.munmap r.run r.run_len = .ok ()) ∧
    ∀ e : Err, k.munmap r.run r.run_len = .error e →
      (VirtualCpuRunner.drop k r).1 = none := by
  refine ⟨rfl, ?_, ?_⟩
  · cases h : k.munmap r.run r.run_len with
    | ok u => cases u; simp [VirtualCpuRunner.drop, h]
    | error e => simp [VirtualCpuRunner.drop, h]
  · intro e he
    simp [VirtualCpuRunner.drop, he]

/-- C9 witness: a runner dropped on a kernel whose unmap fails with error
22 issued exactly its one `munmap(run, run_len)` call and did not return
normally. -/
theorem runner_drop_unmaps_once_witness :
    (VirtualCpuRunner.drop kernUnmapFail ⟨⟨0, ⟨1⟩⟩, 4096, 288⟩).2 =
      [Syscall.munmap 4096 288] ∧
    (VirtualCpuRunner.drop kernUnmapFail ⟨⟨0, ⟨1⟩⟩, 4096, 288⟩).1 = none :=
  ⟨(runner_drop_unmaps_once kernUnmapFail ⟨⟨0, ⟨1⟩⟩, 4096, 288⟩).1,
   (runner_drop_unmaps_once kernUnmapFail ⟨⟨0, ⟨1⟩⟩, 4096, 288⟩).2.2 22 rfl⟩

/-- C1: `set_guest_memory_region(slot, flags, guest_phys_addr, region)`
issues exactly one `KVM_SET_USER_MEMORY_REGION` write whose descriptor
carries exactly `slot`, `flags`, `guest_phys_addr`,
`memory_size = region.length` and `userspace_addr = region.addr` (so a
zero-length region yields a delete request), and returns `()` on any
successful kernel reply. The bounds are the `u64` ranges of the Rust
`size_t`/pointer values being cast. -/
theorem set_guest_memory_region_one_request (k : Kernel) (vm : VirtualMachine)
    (slot flags gpa : Nat) (region : MemoryRegion)
    (hlen : region.length < 2 ^ 64) (haddr : region.addr < 2 ^ 64) :
    (VirtualMachine.set_guest_memory_region k vm slot flags gpa region).2 =
      [Syscall.ioctlWMemRegion vm.fd KVM_SET_USER_MEMORY_REGION
        ⟨slot, flags, gpa, region.length, region.addr⟩] ∧
    ∀ v : Int,
      k.ioctlWMemRegion vm.fd KVM_SET_USER_MEMORY_REGION
        ⟨slot, flags, gpa, region.length, region.addr⟩ = .ok v →
      (VirtualMachine.set_guest_memory_region k vm slot flags gpa region).1 =
        .ok () := by
  have h1 : region.length % 2 ^ 64 = region.length := Nat.mod_eq_of_lt hlen
  have h2 : region.addr % 2 ^ 64 = region.addr := Nat.mod_eq_of_lt haddr
  refine ⟨?_, fun v hv => ?_⟩
  · have ht : (VirtualMachine.set_guest_memory_region k vm slot flags gpa region).2 =
        [Syscall.ioctlWMemRegion vm.fd KVM_SET_USER_MEMORY_REGION
          ⟨slot, flags, gpa, region.length % 2 ^ 64, region.addr % 2 ^ 64⟩] := rfl
    rw [ht, h1, h2]
  · have hr : (VirtualMachine.set_guest_memory_region k vm slot flags gpa region).1 =
        (k.ioctlWMemRegion vm.fd KVM_SET_USER_MEMORY_REGION
          ⟨slot, flags, gpa, region.length % 2 ^ 64, region.addr % 2 ^ 64⟩).map
          (fun _ => ()) := rfl
    rw [hr, h1, h2, hv]
    rfl

/-- C1 witness: registering a 4096-byte region at slot 0 on a succeeding
kernel issues the single expected descriptor write and returns `()`. -/
theorem set_guest_memory_region_one_request_witness :
    (VirtualMachine.set_guest_memory_region kernBase ⟨5, ⟨3⟩⟩ 0 0 0 ⟨8192, 4096⟩).2 =
      [Syscall.ioctlWMemRegion 5 KVM_SET_USER_MEMORY_REGION ⟨0, 0, 0, 4096, 8192⟩] ∧
    (VirtualMachine.set_guest_memory_region kernBase ⟨5, ⟨3⟩⟩ 0 0 0 ⟨8192, 4096⟩).1 =
      .ok () :=
  ⟨(set_guest_memory_region_one_request kernBase ⟨5, ⟨3⟩⟩ 0 0 0 ⟨8192, 4096⟩
      (by decide) (by decide)).1,
   (set_guest_memory_region_one_request kernBase ⟨5, ⟨3⟩⟩ 0 0 0 ⟨8192, 4096⟩
      (by decide) (by decide)).2 0 rfl⟩

/-- C7: `MemoryRegion::new(length)` issues exactly one anonymous mapping
request with null hint address, protection `PROT_READ | PROT_WRITE`,
flags `MAP_SHARED | MAP_ANONYMOUS`, file descriptor `-1` and offset `0`,
and on success records the mapping's base address together with exactly
the requested length, so `as_mut_slice` yields the byte range of exactly
`length` bytes starting at the mapping's base. -/
theorem memory_region_new_anonymous (k : Kernel) (length : Nat) :
    (MemoryRegion.new k length).2 =
      [Syscall.mmapAnon 0 length (0x1 ||| 0x2) (0x1 ||| 0x20) (-1) 0] ∧
    ∀ p : Nat, k.mmapAnon 0 length (0x1 ||| 0x2) (0x1 ||| 0x20) (-1) 0 = .ok p →
      (MemoryRegion.new k length).1 = .ok ⟨p, length⟩ ∧
      MemoryRegion.as_mut_slice ⟨p, length⟩ = (p, length) := by
  refine ⟨rfl, fun p hp => ⟨?_, rfl⟩⟩
  have hr : (MemoryRegion.new k length).1 =
      match k.mmapAnon 0 length (0x1 ||| 0x2) (0x1 ||| 0x20) (-1) 0 with
      | .ok addr => .ok ⟨addr, length⟩
      | .error e => .error e := rfl
  rw [hr, hp]

/-- C7 witness: allocating 4096 bytes on a kernel that maps at 8192
yields the region `⟨8192, 4096⟩` whose slice view is `(8192, 4096)`. -/
theorem memory_region_new_anonymous_witness :
    (MemoryRegion.new kernBase 4096).1 = .ok ⟨8192, 4096⟩ ∧
    MemoryRegion.as_mut_slice ⟨8192, 4096⟩ = (8192, 4096) :=
  (memory_region_new_anonymous kernBase 4096).2 8192 rfl

/-- C5: `modify_regs(f)` performs a whole-register-set get, applies `f`,
then performs a whole-register-set set with the mutated value, returning
`f`'s result on success; if the initial get fails, no set request is
issued and the get's error is returned unchanged. -/
theorem modify_regs_get_then_set (k : Kernel) (r : VirtualCpuRunner)
    (α : Type) (f : KvmRegs → KvmRegs × α) :
    (∀ e : Err, k.ioctlRRegs r.vcpu.fd KVM_GET_REGS = .error e →
       VirtualCpuRunner.modify_regs k r f =
         ⟨.error e, r, [Syscall.ioctlRRegs r.vcpu.fd KVM_GET_REGS]⟩) ∧
    ∀ regs : KvmRegs, k.ioctlRRegs r.vcpu.fd KVM_GET_REGS = .ok regs →
      (VirtualCpuRunner.modify_regs k r f).trace =
        [Syscall.ioctlRRegs r.vcpu.fd KVM_GET_REGS,
         Syscall.ioctlWRegs r.vcpu.fd KVM_SET_REGS (f regs).1] ∧
      ∀ v : Int, k.ioctlWRegs r.vcpu.fd KVM_SET_REGS (f regs).1 = .ok v →
        (VirtualCpuRunner.modify_regs k r f).res = .ok (f regs).2 := by
  constructor
  · intro e he
    simp [VirtualCpuRunner.modify_regs, VirtualCpuRunner.get_regs,
      VirtualCpu.get_regs, he]
  · intro regs hregs
    constructor
    · cases hs : k.ioctlWRegs r.vcpu.fd KVM_SET_REGS (f regs).1 with
      | ok v =>
        simp [VirtualCpuRunner.modify_regs, VirtualCpuRunner.get_regs,
          VirtualCpu.get_regs, VirtualCpuRunner.set_regs, VirtualCpu.set_regs,
          Except.map, hregs, hs]
      | error e =>
        simp [VirtualCpuRunner.modify_regs, VirtualCpuRunner.get_regs,
          VirtualCpu.get_regs, VirtualCpuRunner.set_regs, VirtualCpu.set_regs,
          Except.map, hregs, hs]
    · intro v hv
      simp [VirtualCpuRunner.modify_regs, VirtualCpuRunner.get_regs,
        VirtualCpu.get_regs, VirtualCpuRunner.set_regs, VirtualCpu.set_regs,
        Except.map, hregs, hv]

/-- C5 witness: on a kernel whose get fails with error 9, `modify_regs`
returns error 9 having issued only the get request; on a fully succeeding
kernel it returns `f`'s result after get-then-set. -/
theorem modify_regs_get_then_set_witness :
    VirtualCpuRunner.modify_regs kernGetRegsFail ⟨⟨0, ⟨1⟩⟩, 4096, 288⟩
        (fun regs => ({ regs with rax := 7 }, 42)) =
      ⟨.error 9, ⟨⟨0, ⟨1⟩⟩, 4096, 288⟩, [Syscall.ioctlRRegs 0 KVM_GET_REGS]⟩ ∧
    (VirtualCpuRunner.modify_regs kernBase ⟨⟨0, ⟨1⟩⟩, 4096, 288⟩
        (fun regs => ({ regs with rax := 7 }, 42))).res = .ok 42 :=
  ⟨(modify_regs_get_then_set kernGetRegsFail ⟨⟨0, ⟨1⟩⟩, 4096, 288⟩ Nat
      (fun regs => ({ regs with rax := 7 }, 42))).1 9 rfl,
   ((modify_regs_get_then_set kernBase ⟨⟨0, ⟨1⟩⟩, 4096, 288⟩ Nat
      (fun regs => ({ regs with rax := 7 }, 42))).2 KvmRegs.zero rfl).2 0 rfl⟩

/-- Unfolding lemma: when the shared-page size query answers `n`,
`to_runner` is the query call followed by `VirtualCpuRunner::new` on the
`size_t` cast of `n`. -/
theorem to_runner_unfold_ok (k : Kernel) (cpu : VirtualCpu) (n : Int)
    (hq : k.ioctlNone cpu.kvm.fd KVM_GET_VCPU_MMAP_SIZE = .ok n) :
    VirtualCpu.to_runner k cpu =
      ((VirtualCpuRunner.new k cpu (intToSizeT n)).1,
       Syscall.ioctlNone cpu.kvm.fd KVM_GET_VCPU_MMAP_SIZE ::
         (VirtualCpuRunner.new k cpu (intToSizeT n)).2) := by
  simp [VirtualCpu.to_runner, Kvm.get_vcpu_mmap_size, hq]

/-- Unfolding lemma: when the shared-page size query fails, `to_runner`
returns that error having issued only the query. -/
theorem to_runner_unfold_err (k : Kernel) (cpu : VirtualCpu) (e : Err)
    (hq : k.ioctlNone cpu.kvm.fd KVM_GET_VCPU_MMAP_SIZE = .error e) :
    VirtualCpu.to_runner k cpu =
      (.error e, [Syscall.ioctlNone cpu.kvm.fd KVM_GET_VCPU_MMAP_SIZE]) := by
  simp [VirtualCpu.to_runner, Kvm.get_vcpu_mmap_size, hq]

/-- Unfolding lemma: `VirtualCpuRunner::new` on a size below
`size_of::<kvm_run>()` fails with the local error 12 before any system
call. -/
theorem runner_new_unfold_small (k : Kernel) (cpu : VirtualCpu) (m : Nat)
    (hlt : m < sizeOfKvmRun) :
    VirtualCpuRunner.new k cpu m = (.error 12, []) := by
  simp [VirtualCpuRunner.new, hlt]

/-- Unfolding lemma: `VirtualCpuRunner::new` on an adequate size issues
exactly the read-write/shared mapping call of that length. -/
theorem runner_new_unfold_big (k : Kernel) (cpu : VirtualCpu) (m : Nat)
    (hge : sizeOfKvmRun ≤ m) :
    (VirtualCpuRunner.new k cpu m).2 =
      [Syscall.mmapFd cpu.fd 0 m 0 (0x1 ||| 0x2) 0x1] ∧
    ∀ p : Nat, k.mmapFd cpu.fd 0 m 0 (0x1 ||| 0x2) 0x1 = .ok p →
      (VirtualCpuRunner.new k cpu m).1 = .ok ⟨cpu, p, m⟩ := by
  constructor
  · unfold VirtualCpuRunner.new
    rw [if_neg (Nat.not_lt.mpr hge)]
    cases hm : k.mmapFd cpu.fd 0 m 0 (0x1 ||| 0x2) 0x1 <;> simp
  · intro p hp
    unfold VirtualCpuRunner.new
    rw [if_neg (Nat.not_lt.mpr hge), hp]

/-- C4: every constructible `VirtualCpuRunner` satisfies the invariant
that its stored mapped length is at least `size_of::<kvm_run>()`, and
each of `run_raw`, `with_raw_run_state`, `get_regs`, `set_regs` and
`modify_regs` leaves the stored control-page pointer and mapped length
(indeed the whole runner state) unchanged. -/
theorem runner_invariant_preserved :
    (∀ (k : Kernel) (cpu : VirtualCpu) (m : Nat) (r : VirtualCpuRunner)
       (tr : List Syscall), VirtualCpuRunner.new k cpu m = (.ok r, tr) →
       sizeOfKvmRun ≤ r.run_len) ∧
    (∀ (k : Kernel) (r : VirtualCpuRunner),
       (VirtualCpuRunner.run_raw k r).runner = r) ∧
    (∀ (α : Type) (r : VirtualCpuRunner) (page : KvmRun) (f : KvmRun → KvmRun × α),
       (VirtualCpuRunner.with_raw_run_state r page f).2.2 = r) ∧
    (∀ (k : Kernel) (r : VirtualCpuRunner),
       (VirtualCpuRunner.get_regs k r).runner = r) ∧
    (∀ (k : Kernel) (r : VirtualCpuRunner) (new : KvmRegs),
       (VirtualCpuRunner.set_regs k r new).runner = r) ∧
    (∀ (α : Type) (k : Kernel) (r : VirtualCpuRunner) (f : KvmRegs → KvmRegs × α),
       (VirtualCpuRunner.modify_regs k r f).runner = r) := by
  refine ⟨?_, fun k r => rfl, fun α r page f => rfl, fun k r => rfl,
    fun k r new => rfl, ?_⟩
  · intro k cpu m r tr h
    by_cases hc : m < sizeOfKvmRun
    · rw [runner_new_unfold_small k cpu m hc] at h
      exact absurd h (by simp)
    · have hge := Nat.le_of_not_lt hc
      cases hm : k.mmapFd cpu.fd 0 m 0 (0x1 ||| 0x2) 0x1 with
      | ok p =>
        have h1 : (VirtualCpuRunner.new k cpu m).1 = .ok ⟨cpu, p, m⟩ :=
          (runner_new_unfold_big k cpu m hge).2 p hm
        rw [h] at h1
        injection h1 with h2
        rw [h2]
        exact hge
      | error e =>
        have h1 : VirtualCpuRunner.new k cpu m =
            (.error e, [Syscall.mmapFd cpu.fd 0 m 0 (0x1 ||| 0x2) 0x1]) := by
          unfold VirtualCpuRunner.new
          rw [if_neg (Nat.not_lt.mpr hge), hm]
        rw [h1] at h
        exact absurd h (by simp)
  · intro α k r f
    cases hg : k.ioctlRRegs r.vcpu.fd KVM_GET_REGS with
    | error e =>
      simp [VirtualCpuRunner.modify_regs, VirtualCpuRunner.get_regs,
        VirtualCpu.get_regs, hg]
    | ok regs =>
      cases hs : k.ioctlWRegs r.vcpu.fd KVM_SET_REGS (f regs).1 with
      | ok v =>
        simp [VirtualCpuRunner.modify_regs, VirtualCpuRunner.get_regs,
          VirtualCpu.get_regs, VirtualCpuRunner.set_regs, VirtualCpu.set_regs,
          Except.map, hg, hs]
      | error e =>
        simp [VirtualCpuRunner.modify_regs, VirtualCpuRunner.get_regs,
          VirtualCpu.get_regs, VirtualCpuRunner.set_regs, VirtualCpu.set_regs,
          Except.map, hg, hs]

/-- C4 witness: the runner built from a succeeding kernel with the
288-byte queried size stores a mapped length satisfying the invariant. -/
theorem runner_invariant_preserved_witness :
    sizeOfKvmRun ≤ (⟨⟨0, ⟨1⟩⟩, 4096, 288⟩ : VirtualCpuRunner).run_len :=
  runner_invariant_preserved.1 kernBase ⟨0, ⟨1⟩⟩ 288 ⟨⟨0, ⟨1⟩⟩, 4096, 288⟩
    [Syscall.mmapFd 0 0 288 0 3 1] rfl

/-- C2 counterexample: the claim's threshold is the size of the
`RunControlPage` fixed header (32 bytes), but the code validates against
`size_of::<kvm_run>()` (288 bytes): on a kernel whose size query answers
32 — at least the fixed header size, so the claim says the vCPU handle is
then mapped — `to_runner` instead returns error 12 without attempting any
mapping. -/
theorem to_runner_header_threshold_cex :
    ¬ (∀ (k : Kernel) (cpu : VirtualCpu) (n : Int),
        k.ioctlNone cpu.kvm.fd KVM_GET_VCPU_MMAP_SIZE = .ok n →
        kvmRunHeaderSize ≤ intToSizeT n →
        ((VirtualCpu.to_runner k cpu).2.any Syscall.isMap) = true) := by
  intro h
  have hc := h kern32 ⟨7, ⟨1⟩⟩ 32 rfl (by decide)
  have hf : ((VirtualCpu.to_runner kern32 ⟨7, ⟨1⟩⟩).2.any Syscall.isMap) = false := by
    decide
  rw [hf] at hc
  exact Bool.false_ne_true hc

/-- C2 (amended): for every successfully queried shared-page size `n`,
`to_runner` returns an error without attempting any mapping exactly when
the `size_t` cast of `n` is smaller than the full `kvm_run` control-page
structure size (header plus payload, `size_of::<kvm_run>()`); otherwise
it maps the vCPU handle read-write/shared with length `n`. -/
theorem to_runner_full_struct_threshold (k : Kernel) (cpu : VirtualCpu) (n : Int)
    (hq : k.ioctlNone cpu.kvm.fd KVM_GET_VCPU_MMAP_SIZE = .ok n) :
    (intToSizeT n < sizeOfKvmRun →
       VirtualCpu.to_runner k cpu =
         (.error 12, [Syscall.ioctlNone cpu.kvm.fd KVM_GET_VCPU_MMAP_SIZE])) ∧
    (sizeOfKvmRun ≤ intToSizeT n →
       (VirtualCpu.to_runner k cpu).2 =
         [Syscall.ioctlNone cpu.kvm.fd KVM_GET_VCPU_MMAP_SIZE,
          Syscall.mmapFd cpu.fd 0 (intToSizeT n) 0 (0x1 ||| 0x2) 0x1] ∧
       ∀ p : Nat, k.mmapFd cpu.fd 0 (intToSizeT n) 0 (0x1 ||| 0x2) 0x1 = .ok p →
         (VirtualCpu.to_runner k cpu).1 = .ok ⟨cpu, p, intToSizeT n⟩) := by
  constructor
  · intro hlt
    rw [to_runner_unfold_ok k cpu n hq, runner_new_unfold_small k cpu _ hlt]
  · intro hge
    constructor
    · rw [to_runner_unfold_ok k cpu n hq]
      show _ :: (VirtualCpuRunner.new k cpu (intToSizeT n)).2 = _
      rw [(runner_new_unfold_big k cpu _ hge).1]
    · intro p hp
      rw [to_runner_unfold_ok k cpu n hq]
      exact (runner_new_unfold_big k cpu _ hge).2 p hp

/-- C2 witness: queried size 32 (below 288) yields error 12 with only the
query issued; queried size 288 yields a runner mapped at the returned
pointer with length 288. -/
theorem to_runner_full_struct_threshold_witness :
    VirtualCpu.to_runner kern32 ⟨7, ⟨1⟩⟩ =
      (.error 12, [Syscall.ioctlNone 1 KVM_GET_VCPU_MMAP_SIZE]) ∧
    (VirtualCpu.to_runner kern288 ⟨7, ⟨1⟩⟩).1 = .ok ⟨⟨7, ⟨1⟩⟩, 4096, 288⟩ :=
  ⟨(to_runner_full_struct_threshold kern32 ⟨7, ⟨1⟩⟩ 32 rfl).1 (by decide),
   ((to_runner_full_struct_threshold kern288 ⟨7, ⟨1⟩⟩ 288 rfl).2 (by decide)).2
     4096 rfl⟩

/-- C10: when `to_runner` rejects a queried size as too small, the
returned error is the locally constructed code 12 (ENOMEM) with no
kernel request beyond the size query itself (so for every kernel oracle
the error is the same constant, produced by no request); and when the
size query itself fails, that error is propagated unchanged, taking
precedence over the size check. -/
theorem to_runner_local_enomem_and_query_precedence (k : Kernel) (cpu : VirtualCpu) :
    (∀ n : Int, k.ioctlNone cpu.kvm.fd KVM_GET_VCPU_MMAP_SIZE = .ok n →
       intToSizeT n < sizeOfKvmRun →
       VirtualCpu.to_runner k cpu =
         (.error 12, [Syscall.ioctlNone cpu.kvm.fd KVM_GET_VCPU_MMAP_SIZE])) ∧
    (∀ e : Err, k.ioctlNone cpu.kvm.fd KVM_GET_VCPU_MMAP_SIZE = .error e →
       VirtualCpu.to_runner k cpu =
         (.error e, [Syscall.ioctlNone cpu.kvm.fd KVM_GET_VCPU_MMAP_SIZE])) := by
  constructor
  · intro n hn hlt
    rw [to_runner_unfold_ok k cpu n hn, runner_new_unfold_small k cpu _ hlt]
  · intro e he
    exact to_runner_unfold_err k cpu e he

/-- C10 witness: size 32 yields the constant local error 12; a failing
query propagates its own error 5 instead. -/
theorem to_runner_local_enomem_and_query_precedence_witness :
    VirtualCpu.to_runner kern32 ⟨2, ⟨6⟩⟩ =
      (.error 12, [Syscall.ioctlNone 6 KVM_GET_VCPU_MMAP_SIZE]) ∧
    VirtualCpu.to_runner kernQueryFail ⟨2, ⟨6⟩⟩ =
      (.error 5, [Syscall.ioctlNone 6 KVM_GET_VCPU_MMAP_SIZE]) :=
  ⟨(to_runner_local_enomem_and_query_precedence kern32 ⟨2, ⟨6⟩⟩).1 32 rfl (by decide),
   (to_runner_local_enomem_and_query_precedence kernQueryFail ⟨2, ⟨6⟩⟩).2 5 rfl⟩

end LinuxKvm
